import Mathlib

/-!
Shallow embedding of the risk scoring engine of `src/streamlit_app.py`
(class `SolarRiskCalculator` and the dataclass `RiskScores`).

Modelling conventions:
* Python floats are modelled by exact rationals (`ℚ`); the float literals
  of the source (0.30, 4.5, ...) become the corresponding exact rationals.
* A Python `Dict[str, int]` argument is modelled as an association list
  `List (String × ℤ)` (a Python dict iterates its entries in insertion
  order and holds distinct keys).
* A dict lookup that can raise `KeyError` is modelled by a `String → Option ℚ`
  function returning `none` off the configured keys, and the summation
  `sum(d[f] * w[f] for f in d)` by `dictSum`, which fails (returns `none`)
  exactly when a key of `d` is absent from `w`.
-/

/-- The `RiskScores` dataclass of the source: four float fields. -/
structure RiskScores where
  operational : ℚ
  technical : ℚ
  climate : ℚ
  overall : ℚ
deriving Repr, DecidableEq

/-- The `self.weights` dict of `SolarRiskCalculator.__init__` (category weights). -/
def weights : String → Option ℚ
  | "operational" => some 0.30
  | "technical" => some 0.40
  | "climate" => some 0.30
  | _ => none

/-- The `self.operational_weights` dict of `SolarRiskCalculator.__init__`. -/
def operational_weights : String → Option ℚ
  | "grid_connection" => some 0.30
  | "om_provider" => some 0.25
  | "regulatory" => some 0.25
  | "site_access" => some 0.20
  | _ => none

/-- The `self.technical_weights` dict of `SolarRiskCalculator.__init__`. -/
def technical_weights : String → Option ℚ
  | "panel_tech" => some 0.25
  | "inverter_tech" => some 0.25
  | "system_design" => some 0.25
  | "installation" => some 0.25
  | _ => none

/-- The `self.climate_weights` dict of `SolarRiskCalculator.__init__`. -/
def climate_weights : String → Option ℚ
  | "weather_variability" => some 0.35
  | "extreme_weather" => some 0.35
  | "resource_stability" => some 0.30
  | _ => none

/-- Model of `sum(d[f] * w[f] for f in d)`: iterate the entries of the
ratings dict `d`, multiplying each rating by its weight looked up in `w`;
a key absent from `w` is a `KeyError`, modelled as `none`. -/
def dictSum (w : String → Option ℚ) : List (String × ℤ) → Option ℚ
  | [] => some 0
  | p :: rest =>
    (w p.1).bind fun wf => (dictSum w rest).map fun s => (p.2 : ℚ) * wf + s

/-- The `calculate_risk_scores` method: three weighted sub-scores and the
overall score `op*0.30 + tech*0.40 + climate*0.30` (the three category-weight
lookups `self.weights[...]` are on constant keys of the `weights` dict and
are inlined). Returns `none` exactly when one of the sums raises `KeyError`. -/
def calculate_risk_scores (operational technical climate : List (String × ℤ)) :
    Option RiskScores :=
  match dictSum operational_weights operational,
        dictSum technical_weights technical,
        dictSum climate_weights climate with
  | some op_score, some tech_score, some climate_score =>
    some { operational := op_score
           technical := tech_score
           climate := climate_score
           overall := op_score * 0.30 + tech_score * 0.40 + climate_score * 0.30 }
  | _, _, _ => none

/-- The `get_risk_level` method: top-down threshold ladder. -/
def get_risk_level (score : ℚ) : String :=
  if score ≥ 4.5 then ("VERY LOW RISK")
  else if score ≥ 3.5 then ("LOW RISK")
  else if score ≥ 2.5 then ("MEDIUM RISK")
  else if score ≥ 1.5 then ("HIGH RISK")
  else ("VERY HIGH RISK")

/-- The `get_risk_color` method: emoji indicator on the same ladder. -/
def get_risk_color (score : ℚ) : String :=
  if score ≥ 4.5 then ("🟢")
  else if score ≥ 3.5 then ("🟡")
  else if score ≥ 2.5 then ("🟠")
  else if score ≥ 1.5 then ("🔴")
  else ("⚫")

/-- The operational advisory string literal of `recommendations`. -/
def operational_advisory : String :=
  "🔧 **Operational:** Consider upgrading O&M provider or improving grid connection."

/-- The technical advisory string literal of `recommendations`. -/
def technical_advisory : String :=
  "⚙️  **Technical:** Review equipment selection and contractor experience."

/-- The climate advisory string literal of `recommendations`. -/
def climate_advisory : String :=
  "🌦️  **Climate:** Evaluate insurance options and weather risk mitigation."

/-- The fallback string literal of `recommendations`. -/
def no_recommendations_msg : String :=
  "No specific recommendations—sub-scores are all ≥ 3.0."

/-- The `recommendations` method: one fixed advisory per sub-score strictly
below 3.0 (in the order operational, technical, climate), joined by blank
lines; the fallback sentence when the list is empty. -/
def recommendations (scores : RiskScores) : String :=
  let recs : List String :=
    (if scores.operational < 3.0 then [operational_advisory] else [])
    ++ (if scores.technical < 3.0 then [technical_advisory] else [])
    ++ (if scores.climate < 3.0 then [climate_advisory] else [])
  if recs.isEmpty then no_recommendations_msg
  else String.intercalate "\n\n" recs

/-- The key set of the operational ratings dict as assembled by the app
(`operational_inputs` in the results step). -/
def operational_keys : List String :=
  ["grid_connection", "om_provider", "regulatory", "site_access"]

/-- The key set of the technical ratings dict as assembled by the app. -/
def technical_keys : List String :=
  ["panel_tech", "inverter_tech", "system_design", "installation"]

/-- The key set of the climate ratings dict as assembled by the app. -/
def climate_keys : List String :=
  ["weather_variability", "extreme_weather", "resource_stability"]

/-- A ratings dict is valid for a configured key list when its keys are
exactly that key set (as a dict: a permutation, no duplicates) and every
rating is an integer in [1,5]. -/
def ValidRatings (keys : List String) (d : List (String × ℤ)) : Prop :=
  (d.map Prod.fst).Perm keys ∧ ∀ p ∈ d, 1 ≤ p.2 ∧ p.2 ≤ 5

/-- An operational ratings dict with every factor rated `n`, in the order
the app assembles it. -/
def op_all (n : ℤ) : List (String × ℤ) :=
  [("grid_connection", n), ("om_provider", n), ("regulatory", n), ("site_access", n)]

/-- A technical ratings dict with every factor rated `n`. -/
def tech_all (n : ℤ) : List (String × ℤ) :=
  [("panel_tech", n), ("inverter_tech", n), ("system_design", n), ("installation", n)]

/-- A climate ratings dict with every factor rated `n`. -/
def clim_all (n : ℤ) : List (String × ℤ) :=
  [("weather_variability", n), ("extreme_weather", n), ("resource_stability", n)]

/-- Rank of a risk-level string in the ladder, 0 = least risky band. -/
def risk_level_rank : String → ℕ
  | "VERY LOW RISK" => 0
  | "LOW RISK" => 1
  | "MEDIUM RISK" => 2
  | "HIGH RISK" => 3
  | _ => 4

/-- Rank of a color-indicator string in the ladder, 0 = least risky band. -/
def risk_color_rank : String → ℕ
  | "🟢" => 0
  | "🟡" => 1
  | "🟠" => 2
  | "🔴" => 3
  | _ => 4

/-- Scenario 2 operational dict with a 6 in place of a valid rating. -/
def op_bad6 : List (String × ℤ) :=
  [("grid_connection", 6), ("om_provider", 5), ("regulatory", 5), ("site_access", 5)]

/-- Operational dict missing the `site_access` key. -/
def op_missing : List (String × ℤ) :=
  [("grid_connection", 5), ("om_provider", 5), ("regulatory", 5)]

/-- The weight a successful lookup contributes for factor `f` (0 off-key;
only ever used on keys where the lookup succeeds). -/
def wval (w : String → Option ℚ) (f : String) : ℚ := (w f).getD 0

/-- The pure rational value computed by a successful `dictSum`. -/
def scoreSum (w : String → Option ℚ) (d : List (String × ℤ)) : ℚ :=
  (d.map fun p => (p.2 : ℚ) * wval w p.1).sum

/-- The total weight picked up by the entries of a ratings dict. -/
def weightSum (w : String → Option ℚ) (d : List (String × ℤ)) : ℚ :=
  (d.map fun p => wval w p.1).sum

lemma dictSum_eq_scoreSum (w : String → Option ℚ) (d : List (String × ℤ))
    (h : ∀ p ∈ d, (w p.1).isSome) : dictSum w d = some (scoreSum w d) := by
  induction d with
  | nil => simp [dictSum, scoreSum]
  | cons p rest ih =>
    obtain ⟨wf, hwf⟩ := Option.isSome_iff_exists.mp (h p (List.mem_cons_self p rest))
    have hrest := ih fun q hq => h q (List.mem_cons_of_mem p hq)
    simp [dictSum, scoreSum, hwf, hrest, wval]

lemma scoreSum_between (w : String → Option ℚ) (d : List (String × ℤ))
    (hw : ∀ p ∈ d, 0 ≤ wval w p.1) (hr : ∀ p ∈ d, 1 ≤ p.2 ∧ p.2 ≤ 5) :
    weightSum w d ≤ scoreSum w d ∧ scoreSum w d ≤ 5 * weightSum w d := by
  induction d with
  | nil => simp [weightSum, scoreSum]
  | cons p rest ih =>
    have hp := hr p (List.mem_cons_self p rest)
    have hih := ih (fun q hq => hw q (List.mem_cons_of_mem p hq))
      (fun q hq => hr q (List.mem_cons_of_mem p hq))
    have h1 : (1 : ℚ) ≤ (p.2 : ℚ) := by exact_mod_cast hp.1
    have h5 : (p.2 : ℚ) ≤ 5 := by exact_mod_cast hp.2
    have hw0 := hw p (List.mem_cons_self p rest)
    have hA : wval w p.1 ≤ (p.2 : ℚ) * wval w p.1 := le_mul_of_one_le_left hw0 h1
    have hB : (p.2 : ℚ) * wval w p.1 ≤ 5 * wval w p.1 :=
      mul_le_mul_of_nonneg_right h5 hw0
    simp only [weightSum, scoreSum, List.map_cons, List.sum_cons] at hih ⊢
    constructor
    · linarith [hih.1]
    · linarith [hih.2]

lemma weightSum_eq_keys (w : String → Option ℚ) (keys : List String)
    (d : List (String × ℤ)) (h : (d.map Prod.fst).Perm keys) :
    weightSum w d = (keys.map fun f => wval w f).sum := by
  have h2 := (h.map fun f => wval w f).sum_eq
  simpa [weightSum, List.map_map, Function.comp] using h2

lemma op_keys_isSome : ∀ f ∈ operational_keys, (operational_weights f).isSome := by
  decide

lemma tech_keys_isSome : ∀ f ∈ technical_keys, (technical_weights f).isSome := by
  decide

lemma clim_keys_isSome : ∀ f ∈ climate_keys, (climate_weights f).isSome := by
  decide

lemma op_w_nonneg : ∀ f ∈ operational_keys, 0 ≤ wval operational_weights f := by
  intro f hf
  fin_cases hf <;> norm_num [wval, operational_weights]

lemma tech_w_nonneg : ∀ f ∈ technical_keys, 0 ≤ wval technical_weights f := by
  intro f hf
  fin_cases hf <;> norm_num [wval, technical_weights]

lemma clim_w_nonneg : ∀ f ∈ climate_keys, 0 ≤ wval climate_weights f := by
  intro f hf
  fin_cases hf <;> norm_num [wval, climate_weights]

lemma op_weight_total : (operational_keys.map fun f => wval operational_weights f).sum = 1 := by
  norm_num [operational_keys, wval, operational_weights]

lemma tech_weight_total : (technical_keys.map fun f => wval technical_weights f).sum = 1 := by
  norm_num [technical_keys, wval, technical_weights]

lemma clim_weight_total : (climate_keys.map fun f => wval climate_weights f).sum = 1 := by
  norm_num [climate_keys, wval, climate_weights]

lemma validScore (w : String → Option ℚ) (keys : List String) (d : List (String × ℤ))
    (hks : ∀ f ∈ keys, (w f).isSome)
    (hnn : ∀ f ∈ keys, 0 ≤ wval w f)
    (htot : (keys.map fun f => wval w f).sum = 1)
    (h : ValidRatings keys d) :
    dictSum w d = some (scoreSum w d) ∧ 1 ≤ scoreSum w d ∧ scoreSum w d ≤ 5 := by
  have hmem : ∀ p ∈ d, p.1 ∈ keys := fun p hp =>
    h.1.subset (List.mem_map_of_mem Prod.fst hp)
  have hsome : ∀ p ∈ d, (w p.1).isSome := fun p hp => hks p.1 (hmem p hp)
  have hnn' : ∀ p ∈ d, 0 ≤ wval w p.1 := fun p hp => hnn p.1 (hmem p hp)
  have hb := scoreSum_between w d hnn' h.2
  have hw := weightSum_eq_keys w keys d h.1
  rw [htot] at hw
  refine ⟨dictSum_eq_scoreSum w d hsome, ?_, ?_⟩
  · linarith [hb.1]
  · linarith [hb.2]

lemma calculate_inv (o t c : List (String × ℤ)) (s : RiskScores)
    (h : calculate_risk_scores o t c = some s) :
    dictSum operational_weights o = some s.operational ∧
    dictSum technical_weights t = some s.technical ∧
    dictSum climate_weights c = some s.climate ∧
    s.overall = s.operational * 0.30 + s.technical * 0.40 + s.climate * 0.30 := by
  unfold calculate_risk_scores at h
  split at h
  · rename_i op_score tech_score climate_score ho ht hc
    simp only [Option.some.injEq] at h
    subst h
    exact ⟨ho, ht, hc, rfl⟩
  · exact absurd h (by simp)

/-- C3: for every input whose three ratings dicts carry exactly the configured
factor keys and whose ratings are integers in [1,5], `calculate_risk_scores`
succeeds and returns a `RiskScores` whose operational, technical, climate and
overall fields all lie within [1, 5]. -/
theorem C3_valid_scores_in_range (o t c : List (String × ℤ))
    (ho : ValidRatings operational_keys o)
    (ht : ValidRatings technical_keys t)
    (hc : ValidRatings climate_keys c) :
    ∃ s : RiskScores, calculate_risk_scores o t c = some s ∧
      1 ≤ s.operational ∧ s.operational ≤ 5 ∧
      1 ≤ s.technical ∧ s.technical ≤ 5 ∧
      1 ≤ s.climate ∧ s.climate ≤ 5 ∧
      1 ≤ s.overall ∧ s.overall ≤ 5 := by
  obtain ⟨do1, l1, u1⟩ :=
    validScore operational_weights operational_keys o op_keys_isSome op_w_nonneg
      op_weight_total ho
  obtain ⟨do2, l2, u2⟩ :=
    validScore technical_weights technical_keys t tech_keys_isSome tech_w_nonneg
      tech_weight_total ht
  obtain ⟨do3, l3, u3⟩ :=
    validScore climate_weights climate_keys c clim_keys_isSome clim_w_nonneg
      clim_weight_total hc
  refine ⟨⟨scoreSum operational_weights o, scoreSum technical_weights t,
    scoreSum climate_weights c,
    scoreSum operational_weights o * 0.30 + scoreSum technical_weights t * 0.40
      + scoreSum climate_weights c * 0.30⟩,
    ?_, l1, u1, l2, u2, l3, u3, ?_, ?_⟩
  · simp [calculate_risk_scores, do1, do2, do3]
  · show (1 : ℚ) ≤ _
    norm_num
    linarith
  · show _ ≤ (5 : ℚ)
    norm_num
    linarith

/-- Witness for C3 at the all-threes input. -/
theorem C3_witness : ∃ s : RiskScores,
    calculate_risk_scores (op_all 3) (tech_all 3) (clim_all 3) = some s ∧
      1 ≤ s.operational ∧ s.operational ≤ 5 ∧
      1 ≤ s.technical ∧ s.technical ≤ 5 ∧
      1 ≤ s.climate ∧ s.climate ≤ 5 ∧
      1 ≤ s.overall ∧ s.overall ≤ 5 :=
  C3_valid_scores_in_range (op_all 3) (tech_all 3) (clim_all 3)
    ⟨by decide, by decide⟩ ⟨by decide, by decide⟩ ⟨by decide, by decide⟩

/-- C8: a category whose factor ratings are all 5 yields that category
sub-score exactly 5, and all ratings 1 yields exactly 1, whatever the other
two ratings dicts are (whenever the computation succeeds). -/
theorem C8_boundary_exactness :
    (∀ t c s, calculate_risk_scores (op_all 5) t c = some s → s.operational = 5) ∧
    (∀ t c s, calculate_risk_scores (op_all 1) t c = some s → s.operational = 1) ∧
    (∀ o c s, calculate_risk_scores o (tech_all 5) c = some s → s.technical = 5) ∧
    (∀ o c s, calculate_risk_scores o (tech_all 1) c = some s → s.technical = 1) ∧
    (∀ o t s, calculate_risk_scores o t (clim_all 5) = some s → s.climate = 5) ∧
    (∀ o t s, calculate_risk_scores o t (clim_all 1) = some s → s.climate = 1) := by
  refine ⟨fun x y s h => ?_, fun x y s h => ?_, fun x y s h => ?_,
    fun x y s h => ?_, fun x y s h => ?_, fun x y s h => ?_⟩
  · have h1 := (calculate_inv _ _ _ _ h).1
    have h2 : dictSum operational_weights (op_all 5) = some 5 := by
      norm_num [dictSum, op_all, operational_weights]
    rw [h2] at h1
    exact (Option.some.inj h1).symm
  · have h1 := (calculate_inv _ _ _ _ h).1
    have h2 : dictSum operational_weights (op_all 1) = some 1 := by
      norm_num [dictSum, op_all, operational_weights]
    rw [h2] at h1
    exact (Option.some.inj h1).symm
  · have h1 := (calculate_inv _ _ _ _ h).2.1
    have h2 : dictSum technical_weights (tech_all 5) = some 5 := by
      norm_num [dictSum, tech_all, technical_weights]
    rw [h2] at h1
    exact (Option.some.inj h1).symm
  · have h1 := (calculate_inv _ _ _ _ h).2.1
    have h2 : dictSum technical_weights (tech_all 1) = some 1 := by
      norm_num [dictSum, tech_all, technical_weights]
    rw [h2] at h1
    exact (Option.some.inj h1).symm
  · have h1 := (calculate_inv _ _ _ _ h).2.2.1
    have h2 : dictSum climate_weights (clim_all 5) = some 5 := by
      norm_num [dictSum, clim_all, climate_weights]
    rw [h2] at h1
    exact (Option.some.inj h1).symm
  · have h1 := (calculate_inv _ _ _ _ h).2.2.1
    have h2 : dictSum climate_weights (clim_all 1) = some 1 := by
      norm_num [dictSum, clim_all, climate_weights]
    rw [h2] at h1
    exact (Option.some.inj h1).symm

/-- Witness for C8: the all-fives operational dict together with all-threes
elsewhere computes, and its operational sub-score is 5. -/
theorem C8_witness :
    calculate_risk_scores (op_all 5) (tech_all 3) (clim_all 3) =
      some { operational := 5, technical := 3, climate := 3, overall := 3.6 } ∧
    (RiskScores.mk 5 3 3 3.6).operational = 5 := by
  have hcalc : calculate_risk_scores (op_all 5) (tech_all 3) (clim_all 3) =
      some { operational := 5, technical := 3, climate := 3, overall := 3.6 } := by
    norm_num [calculate_risk_scores, dictSum, op_all, tech_all, clim_all,
      operational_weights, technical_weights, climate_weights]
  exact ⟨hcalc, C8_boundary_exactness.1 (tech_all 3) (clim_all 3) _ hcalc⟩

/-- C9: on valid input the overall score is a convex combination of the three
sub-scores, hence between their minimum and their maximum. -/
theorem C9_overall_convex (o t c : List (String × ℤ)) (s : RiskScores)
    (_ho : ValidRatings operational_keys o)
    (_ht : ValidRatings technical_keys t)
    (_hc : ValidRatings climate_keys c)
    (h : calculate_risk_scores o t c = some s) :
    min s.operational (min s.technical s.climate) ≤ s.overall ∧
    s.overall ≤ max s.operational (max s.technical s.climate) := by
  obtain ⟨-, -, -, hov⟩ := calculate_inv o t c s h
  constructor
  · have hm1 : min s.operational (min s.technical s.climate) ≤ s.operational :=
      min_le_left _ _
    have hm2 : min s.operational (min s.technical s.climate) ≤ s.technical :=
      le_trans (min_le_right _ _) (min_le_left _ _)
    have hm3 : min s.operational (min s.technical s.climate) ≤ s.climate :=
      le_trans (min_le_right _ _) (min_le_right _ _)
    rw [hov]
    linarith
  · have hm1 : s.operational ≤ max s.operational (max s.technical s.climate) :=
      le_max_left _ _
    have hm2 : s.technical ≤ max s.operational (max s.technical s.climate) :=
      le_trans (le_max_left _ _) (le_max_right _ _)
    have hm3 : s.climate ≤ max s.operational (max s.technical s.climate) :=
      le_trans (le_max_right _ _) (le_max_right _ _)
    rw [hov]
    linarith

/-- Witness for C9 at the all-threes input. -/
theorem C9_witness :
    min (RiskScores.mk 3 3 3 3).operational
      (min (RiskScores.mk 3 3 3 3).technical (RiskScores.mk 3 3 3 3).climate) ≤
        (RiskScores.mk 3 3 3 3).overall ∧
    (RiskScores.mk 3 3 3 3).overall ≤
      max (RiskScores.mk 3 3 3 3).operational
        (max (RiskScores.mk 3 3 3 3).technical (RiskScores.mk 3 3 3 3).climate) :=
  C9_overall_convex (op_all 3) (tech_all 3) (clim_all 3) (RiskScores.mk 3 3 3 3)
    ⟨by decide, by decide⟩ ⟨by decide, by decide⟩ ⟨by decide, by decide⟩
    (by norm_num [calculate_risk_scores, dictSum, op_all, tech_all, clim_all,
      operational_weights, technical_weights, climate_weights])

/-- C4: `get_risk_level` is the top-down first-match threshold ladder with
inclusive lower bounds, and the tie at exactly 4.5 is VERY LOW RISK. -/
theorem C4_threshold_ladder (score : ℚ) :
    (score ≥ 4.5 → get_risk_level score = "VERY LOW RISK") ∧
    (¬ score ≥ 4.5 → score ≥ 3.5 → get_risk_level score = "LOW RISK") ∧
    (¬ score ≥ 4.5 → ¬ score ≥ 3.5 → score ≥ 2.5 →
      get_risk_level score = "MEDIUM RISK") ∧
    (¬ score ≥ 4.5 → ¬ score ≥ 3.5 → ¬ score ≥ 2.5 → score ≥ 1.5 →
      get_risk_level score = "HIGH RISK") ∧
    (¬ score ≥ 4.5 → ¬ score ≥ 3.5 → ¬ score ≥ 2.5 → ¬ score ≥ 1.5 →
      get_risk_level score = "VERY HIGH RISK") ∧
    get_risk_level 4.5 = "VERY LOW RISK" ∧ get_risk_level 4.5 ≠ "LOW RISK" := by
  refine ⟨fun h1 => ?_, fun h1 h2 => ?_, fun h1 h2 h3 => ?_,
    fun h1 h2 h3 h4 => ?_, fun h1 h2 h3 h4 => ?_, ?_, ?_⟩ <;>
    simp [get_risk_level, *]

/-- Witness for C4: one score inside each of the five bands. -/
theorem C4_witness :
    get_risk_level 5 = "VERY LOW RISK" ∧ get_risk_level 4 = "LOW RISK" ∧
    get_risk_level 3 = "MEDIUM RISK" ∧ get_risk_level 2 = "HIGH RISK" ∧
    get_risk_level 1 = "VERY HIGH RISK" :=
  ⟨(C4_threshold_ladder 5).1 (by norm_num),
   (C4_threshold_ladder 4).2.1 (by norm_num) (by norm_num),
   (C4_threshold_ladder 3).2.2.1 (by norm_num) (by norm_num) (by norm_num),
   (C4_threshold_ladder 2).2.2.2.1 (by norm_num) (by norm_num) (by norm_num)
     (by norm_num),
   (C4_threshold_ladder 1).2.2.2.2.1 (by norm_num) (by norm_num) (by norm_num)
     (by norm_num)⟩

/-- C5: for every score, the risk level and the color indicator fall in the
same band of the five-band ladder: the pair returned is always one of the
five matched (level, indicator) pairs. -/
theorem C5_level_color_consistent (score : ℚ) :
    (get_risk_level score, get_risk_color score) ∈
      [("VERY LOW RISK", "🟢"), ("LOW RISK", "🟡"), ("MEDIUM RISK", "🟠"),
       ("HIGH RISK", "🔴"), ("VERY HIGH RISK", "⚫")] := by
  unfold get_risk_level get_risk_color
  split_ifs <;> simp

/-- C10: `get_risk_level` and `get_risk_color` are total (they always return
one of their five strings, for any rational score, in or out of [1,5]) and
the band they select is monotone: a larger score never lands in a riskier
band. -/
theorem C10_total_monotone (s t : ℚ) :
    get_risk_level s ∈
      ["VERY LOW RISK", "LOW RISK", "MEDIUM RISK", "HIGH RISK", "VERY HIGH RISK"] ∧
    get_risk_color s ∈ ["🟢", "🟡", "🟠", "🔴", "⚫"] ∧
    (s ≤ t → risk_level_rank (get_risk_level t) ≤ risk_level_rank (get_risk_level s) ∧
      risk_color_rank (get_risk_color t) ≤ risk_color_rank (get_risk_color s)) := by
  refine ⟨?_, ?_, fun hst => ?_⟩
  · unfold get_risk_level
    split_ifs <;> simp
  · unfold get_risk_color
    split_ifs <;> simp
  · unfold get_risk_level get_risk_color
    split_ifs <;> first | exact ⟨by decide, by decide⟩ | linarith

/-- Witness for C10 with scores 2 ≤ 3: band ranks do not increase. -/
theorem C10_witness :
    risk_level_rank (get_risk_level 3) ≤ risk_level_rank (get_risk_level 2) ∧
    risk_color_rank (get_risk_color 3) ≤ risk_color_rank (get_risk_color 2) :=
  (C10_total_monotone 2 3).2.2 (by norm_num)

/-- C6: `recommendations` emits exactly one fixed advisory per category
sub-score strictly below 3.0, in the order operational, technical, climate,
joined as separate paragraphs, and the single fixed no-recommendations
sentence when no sub-score is below 3.0 (all eight cases). -/
theorem C6_recommendation_cases (sc : RiskScores) :
    (3.0 ≤ sc.operational → 3.0 ≤ sc.technical → 3.0 ≤ sc.climate →
      recommendations sc = no_recommendations_msg) ∧
    (sc.operational < 3.0 → 3.0 ≤ sc.technical → 3.0 ≤ sc.climate →
      recommendations sc = operational_advisory) ∧
    (3.0 ≤ sc.operational → sc.technical < 3.0 → 3.0 ≤ sc.climate →
      recommendations sc = technical_advisory) ∧
    (3.0 ≤ sc.operational → 3.0 ≤ sc.technical → sc.climate < 3.0 →
      recommendations sc = climate_advisory) ∧
    (sc.operational < 3.0 → sc.technical < 3.0 → 3.0 ≤ sc.climate →
      recommendations sc = operational_advisory ++ "\n\n" ++ technical_advisory) ∧
    (sc.operational < 3.0 → 3.0 ≤ sc.technical → sc.climate < 3.0 →
      recommendations sc = operational_advisory ++ "\n\n" ++ climate_advisory) ∧
    (3.0 ≤ sc.operational → sc.technical < 3.0 → sc.climate < 3.0 →
      recommendations sc = technical_advisory ++ "\n\n" ++ climate_advisory) ∧
    (sc.operational < 3.0 → sc.technical < 3.0 → sc.climate < 3.0 →
      recommendations sc =
        operational_advisory ++ "\n\n" ++ technical_advisory ++ "\n\n"
          ++ climate_advisory) := by
  refine ⟨fun h1 h2 h3 => ?_, fun h1 h2 h3 => ?_, fun h1 h2 h3 => ?_,
    fun h1 h2 h3 => ?_, fun h1 h2 h3 => ?_, fun h1 h2 h3 => ?_,
    fun h1 h2 h3 => ?_, fun h1 h2 h3 => ?_⟩
  · simp [recommendations, not_lt.mpr h1, not_lt.mpr h2, not_lt.mpr h3]
  · simp [recommendations, h1, not_lt.mpr h2, not_lt.mpr h3,
      String.intercalate, String.intercalate.go]
  · simp [recommendations, not_lt.mpr h1, h2, not_lt.mpr h3,
      String.intercalate, String.intercalate.go]
  · simp [recommendations, not_lt.mpr h1, not_lt.mpr h2, h3,
      String.intercalate, String.intercalate.go]
  · simp [recommendations, h1, h2, not_lt.mpr h3,
      String.intercalate, String.intercalate.go]
  · simp [recommendations, h1, not_lt.mpr h2, h3,
      String.intercalate, String.intercalate.go]
  · simp [recommendations, not_lt.mpr h1, h2, h3,
      String.intercalate, String.intercalate.go]
  · simp [recommendations, h1, h2, h3,
      String.intercalate, String.intercalate.go]

/-- Witness for C6: the all-threes result gets the no-recommendations
sentence and the low-technical result gets exactly the technical advisory. -/
theorem C6_witness :
    recommendations (RiskScores.mk 3 3 3 3) = no_recommendations_msg ∧
    recommendations (RiskScores.mk 5 1 5 3.4) = technical_advisory :=
  ⟨(C6_recommendation_cases (RiskScores.mk 3 3 3 3)).1 (by norm_num) (by norm_num)
      (by norm_num),
   (C6_recommendation_cases (RiskScores.mk 5 1 5 3.4)).2.2.1 (by norm_num)
      (by norm_num) (by norm_num)⟩

/-- C1 counterexample: on the Scenario 2 input the overall score is not 2.8
and the risk level of the overall score is not HIGH RISK. -/
theorem C1_counterexample :
    ¬ ((calculate_risk_scores (op_all 5) (tech_all 1) (clim_all 5)).map
        RiskScores.overall = some 2.8 ∧
      (calculate_risk_scores (op_all 5) (tech_all 1) (clim_all 5)).map
        (fun s => get_risk_level s.overall) = some "HIGH RISK") := by
  have hcalc : calculate_risk_scores (op_all 5) (tech_all 1) (clim_all 5) =
      some { operational := 5, technical := 1, climate := 5, overall := 3.4 } := by
    norm_num [calculate_risk_scores, dictSum, op_all, tech_all, clim_all,
      operational_weights, technical_weights, climate_weights]
  rw [hcalc]
  intro h
  have h1 := h.1
  norm_num [Option.map_some] at h1

/-- C1 as amended: the Scenario 2 input gives operational 5.0, technical 1.0,
climate 5.0, overall 3.4; the risk level of the overall score is MEDIUM RISK;
and the recommendations text is exactly the technical advisory. -/
theorem C1_scenario2 :
    calculate_risk_scores (op_all 5) (tech_all 1) (clim_all 5) =
      some { operational := 5, technical := 1, climate := 5, overall := 3.4 } ∧
    get_risk_level 3.4 = "MEDIUM RISK" ∧
    recommendations (RiskScores.mk 5 1 5 3.4) = technical_advisory := by
  refine ⟨?_, ?_, ?_⟩
  · norm_num [calculate_risk_scores, dictSum, op_all, tech_all, clim_all,
      operational_weights, technical_weights, climate_weights]
  · norm_num [get_risk_level]
  · norm_num [recommendations, String.intercalate, String.intercalate.go]

/-- C2 counterexample: an out-of-range rating of 6 and a missing factor key
both produce a result, rather than failing. -/
theorem C2_counterexample :
    (calculate_risk_scores op_bad6 (tech_all 3) (clim_all 3)).isSome = true ∧
    (calculate_risk_scores op_missing (tech_all 3) (clim_all 3)).isSome = true := by
  constructor <;>
    norm_num [calculate_risk_scores, dictSum, op_bad6, op_missing, tech_all,
      clim_all, operational_weights, technical_weights, climate_weights]

/-- C2 as amended: `calculate_risk_scores` performs no validation. A rating
of 6 is used as-is (operational sub-score 5.3), a missing factor key is
silently skipped (partial weighted sum 4.0), and only an extra key absent
from the factor-weight configuration fails, as a `KeyError`-style lookup
failure. -/
theorem C2_no_validation :
    calculate_risk_scores op_bad6 (tech_all 3) (clim_all 3) =
      some { operational := 5.3, technical := 3, climate := 3, overall := 3.69 } ∧
    calculate_risk_scores op_missing (tech_all 3) (clim_all 3) =
      some { operational := 4, technical := 3, climate := 3, overall := 3.3 } ∧
    calculate_risk_scores (op_all 3 ++ [("foo", 3)]) (tech_all 3) (clim_all 3) =
      none := by
  refine ⟨?_, ?_, rfl⟩ <;>
    norm_num [calculate_risk_scores, dictSum, op_bad6, op_missing, op_all,
      tech_all, clim_all, operational_weights, technical_weights, climate_weights]

lemma scoreSum_bump (w : String → Option ℚ) (pre post : List (String × ℤ))
    (f : String) (r : ℤ) :
    scoreSum w (pre ++ (f, r + 1) :: post) =
      scoreSum w (pre ++ (f, r) :: post) + wval w f := by
  simp only [scoreSum, List.map_append, List.map_cons, List.sum_append,
    List.sum_cons]
  push_cast
  ring

lemma map_fst_bump (pre post : List (String × ℤ)) (f : String) (r r' : ℤ) :
    (pre ++ (f, r') :: post).map Prod.fst = (pre ++ (f, r) :: post).map Prod.fst := by
  simp

lemma dictSum_bump_valid (w : String → Option ℚ) (keys : List String)
    (hks : ∀ f ∈ keys, (w f).isSome)
    (pre post : List (String × ℤ)) (f : String) (r : ℤ)
    (h : ((pre ++ (f, r) :: post).map Prod.fst).Perm keys) :
    dictSum w (pre ++ (f, r) :: post) =
      some (scoreSum w (pre ++ (f, r) :: post)) ∧
    dictSum w (pre ++ (f, r + 1) :: post) =
      some (scoreSum w (pre ++ (f, r) :: post) + wval w f) := by
  have hsome : ∀ p ∈ pre ++ (f, r) :: post, (w p.1).isSome := fun p hp =>
    hks p.1 (h.subset (List.mem_map_of_mem Prod.fst hp))
  have hsome' : ∀ p ∈ pre ++ (f, r + 1) :: post, (w p.1).isSome := by
    intro p hp
    have hm : p.1 ∈ (pre ++ (f, r + 1) :: post).map Prod.fst :=
      List.mem_map_of_mem Prod.fst hp
    rw [map_fst_bump pre post f r (r + 1)] at hm
    exact hks p.1 (h.subset hm)
  refine ⟨dictSum_eq_scoreSum w _ hsome, ?_⟩
  rw [dictSum_eq_scoreSum w _ hsome', scoreSum_bump]

/-- C7: on valid input, raising any single factor rating by one (the rating
being at most 4, so the result is again a valid input) never decreases that
factor category sub-score nor the overall score, for each of the three
categories. -/
theorem C7_monotone :
    (∀ pre post f r t c s s',
      ValidRatings operational_keys (pre ++ (f, r) :: post) →
      ValidRatings technical_keys t → ValidRatings climate_keys c → r ≤ 4 →
      calculate_risk_scores (pre ++ (f, r) :: post) t c = some s →
      calculate_risk_scores (pre ++ (f, r + 1) :: post) t c = some s' →
      s.operational ≤ s'.operational ∧ s.overall ≤ s'.overall) ∧
    (∀ pre post f r o c s s',
      ValidRatings operational_keys o →
      ValidRatings technical_keys (pre ++ (f, r) :: post) →
      ValidRatings climate_keys c → r ≤ 4 →
      calculate_risk_scores o (pre ++ (f, r) :: post) c = some s →
      calculate_risk_scores o (pre ++ (f, r + 1) :: post) c = some s' →
      s.technical ≤ s'.technical ∧ s.overall ≤ s'.overall) ∧
    (∀ pre post f r o t s s',
      ValidRatings operational_keys o → ValidRatings technical_keys t →
      ValidRatings climate_keys (pre ++ (f, r) :: post) → r ≤ 4 →
      calculate_risk_scores o t (pre ++ (f, r) :: post) = some s →
      calculate_risk_scores o t (pre ++ (f, r + 1) :: post) = some s' →
      s.climate ≤ s'.climate ∧ s.overall ≤ s'.overall) := by
  refine ⟨fun pre post f r t c s s' ho ht hc hr h h' => ?_,
    fun pre post f r o c s s' ho ht hc hr h h' => ?_,
    fun pre post f r o t s s' ho ht hc hr h h' => ?_⟩
  · obtain ⟨hd, hd'⟩ :=
      dictSum_bump_valid operational_weights operational_keys op_keys_isSome
        pre post f r ho.1
    obtain ⟨d1, d2, d3, hov⟩ := calculate_inv _ _ _ _ h
    obtain ⟨d1', d2', d3', hov'⟩ := calculate_inv _ _ _ _ h'
    rw [hd] at d1
    rw [hd'] at d1'
    have e1 := Option.some.inj d1
    have e1' := Option.some.inj d1'
    rw [d2] at d2'
    have et := Option.some.inj d2'
    rw [d3] at d3'
    have ec := Option.some.inj d3'
    have hf : f ∈ operational_keys := ho.1.subset (by simp)
    have hw0 := op_w_nonneg f hf
    constructor
    · linarith [e1, e1', hw0]
    · rw [hov, hov']
      linarith [e1, e1', et, ec, hw0]
  · obtain ⟨hd, hd'⟩ :=
      dictSum_bump_valid technical_weights technical_keys tech_keys_isSome
        pre post f r ht.1
    obtain ⟨d1, d2, d3, hov⟩ := calculate_inv _ _ _ _ h
    obtain ⟨d1', d2', d3', hov'⟩ := calculate_inv _ _ _ _ h'
    rw [hd] at d2
    rw [hd'] at d2'
    have e1 := Option.some.inj d2
    have e1' := Option.some.inj d2'
    rw [d1] at d1'
    have eo := Option.some.inj d1'
    rw [d3] at d3'
    have ec := Option.some.inj d3'
    have hf : f ∈ technical_keys := ht.1.subset (by simp)
    have hw0 := tech_w_nonneg f hf
    constructor
    · linarith [e1, e1', hw0]
    · rw [hov, hov']
      linarith [e1, e1', eo, ec, hw0]
  · obtain ⟨hd, hd'⟩ :=
      dictSum_bump_valid climate_weights climate_keys clim_keys_isSome
        pre post f r hc.1
    obtain ⟨d1, d2, d3, hov⟩ := calculate_inv _ _ _ _ h
    obtain ⟨d1', d2', d3', hov'⟩ := calculate_inv _ _ _ _ h'
    rw [hd] at d3
    rw [hd'] at d3'
    have e1 := Option.some.inj d3
    have e1' := Option.some.inj d3'
    rw [d1] at d1'
    have eo := Option.some.inj d1'
    rw [d2] at d2'
    have et := Option.some.inj d2'
    have hf : f ∈ climate_keys := hc.1.subset (by simp)
    have hw0 := clim_w_nonneg f hf
    constructor
    · linarith [e1, e1', hw0]
    · rw [hov, hov']
      linarith [e1, e1', eo, et, hw0]

/-- Witness for C7: raising the grid_connection rating from 3 to 4 raises
the operational sub-score from 3 to 3.3 and the overall score from 3 to 3.09. -/
theorem C7_witness :
    (RiskScores.mk 3 3 3 3).operational ≤ (RiskScores.mk 3.3 3 3 3.09).operational ∧
    (RiskScores.mk 3 3 3 3).overall ≤ (RiskScores.mk 3.3 3 3 3.09).overall :=
  C7_monotone.1 [] [("om_provider", 3), ("regulatory", 3), ("site_access", 3)]
    "grid_connection" 3 (tech_all 3) (clim_all 3) (RiskScores.mk 3 3 3 3)
    (RiskScores.mk 3.3 3 3 3.09)
    ⟨by decide, by decide⟩ ⟨by decide, by decide⟩ ⟨by decide, by decide⟩
    (by norm_num)
    (by norm_num [calculate_risk_scores, dictSum, tech_all, clim_all,
      operational_weights, technical_weights, climate_weights])
    (by norm_num [calculate_risk_scores, dictSum, tech_all, clim_all,
      operational_weights, technical_weights, climate_weights])
